import Mathlib

/-!
Shallow embedding of `iam_policy_reporter.py`.

The script reads a JSON export of IAM policy documents, classifies each
document's resource as Project / Folder / unsupported via two anchored
regular expressions, enriches supported resources with display names
obtained from external `gcloud` invocations (memoised for folders in a
module-level cache), flattens the policy bindings into report rows, and
writes a CSV with a fixed header.

External `gcloud` calls are modelled by an `Oracle` of pure functions
(`some stdout` = exit status 0, `none` = `CalledProcessError`).  The
mutable module state (the folder cache) together with an observation log
of the external calls made is threaded explicitly as `CState`.  Python
exceptions that the script does not catch are modelled by `Option`
(`none` = an unhandled exception aborts the run).  `str.strip()`, `str.split(sep)` and `c in s` are modelled by the
structurally recursive `pyStrip`, `pySplit` and `charIn` below, which
follow the Python semantics character by character.
-/

set_option autoImplicit false

namespace IAMReport

/-- One `binding` object of a policy, with JSON `.get` defaults applied late:
`role` and `members` may be absent. -/
structure Binding where
  role : Option String
  members : Option (List String)
  deriving DecidableEq, Repr

/-- The `policy` object: `bindings` may be absent. -/
structure Policy where
  bindings : Option (List Binding)
  deriving DecidableEq, Repr

/-- One element of the input JSON array; each field may be absent
(`dict.get` defaults are applied at the use sites, as in the script). -/
structure PolicyDoc where
  resource : Option String
  organization : Option String
  policy : Option Policy
  deriving DecidableEq, Repr

/-- One CSV data row, in column order. -/
structure Row where
  organizationId : String
  resourceType : String
  resourceId : String
  resourceName : String
  parentName : String
  role : String
  member : String
  deriving DecidableEq, Repr

/-- An external `gcloud` invocation, as observable in the call log. -/
inductive ExtCall where
  /-- `gcloud resource-manager folders describe ID --format=value(displayName)`,
  issued only from `get_folder_name`. -/
  | describeFolderName (folderId : String)
  /-- `gcloud projects describe ID --format=value(name, parent.type, parent.id)`. -/
  | describeProjectCall (projectId : String)
  /-- `gcloud resource-manager folders describe ID --format=value(parent)`. -/
  | describeFolderParent (folderId : String)
  deriving DecidableEq, Repr

/-- The external lookup service: `some s` models a successful subprocess
with stdout `s`; `none` models a nonzero exit (`CalledProcessError`). -/
structure Oracle where
  describeFolder : String → Option String
  describeProject : String → Option String
  getFolderParent : String → Option String

/-- Mutable script state: the module-level `folder_cache` dict plus an
observation log.  `resolveLog` records, per external lookup issued by
`get_folder_name`, the cache key (`folder_id_str`) that caused it;
`callLog` records every subprocess invocation of the run. -/
structure CState where
  cache : List (String × String)
  resolveLog : List String
  callLog : List ExtCall
  deriving DecidableEq, Repr

def emptyState : CState := ⟨[], [], []⟩

/-- Python dict lookup on the association-list model of `folder_cache`. -/
def cacheGet (k : String) : List (String × String) → Option String
  | [] => none
  | (k', v) :: rest => if k = k' then some v else cacheGet k rest

/-- Python's `str.split(sep)` for a single-character separator, on the
character list: splitting never yields the empty list. -/
def splitChars (sep : Char) : List Char → List (List Char)
  | [] => [[]]
  | c :: rest =>
    if c = sep then [] :: splitChars sep rest
    else
      match splitChars sep rest with
      | [] => [[c]]
      | g :: gs => (c :: g) :: gs

/-- Python's `s.split(sep)` for a single-character separator. -/
def pySplit (sep : Char) (s : String) : List String :=
  (splitChars sep s.data).map (fun cs => ⟨cs⟩)

/-- The whitespace stripped by Python's `str.strip()`. -/
def isPySpace (c : Char) : Bool :=
  c = ' ' || c = '\t' || c = '\n' || c = '\r' ||
  c = Char.ofNat 11 || c = Char.ofNat 12

/-- Python's `s.strip()`. -/
def pyStrip (s : String) : String :=
  ⟨((s.data.dropWhile isPySpace).reverse.dropWhile isPySpace).reverse⟩

/-- Python's `c in s` for a single character. -/
def charIn (c : Char) (s : String) : Bool :=
  s.data.any (fun d => d = c)

/-- The `"<not found>"` sentinel cached by `get_folder_name` on failure. -/
def notFound : String := "<not found>"

/-- `get_folder_name(folder_id_str)` (lines 30-56): cache hit returns the
cached value with no external call; otherwise `folder_id_str.split('/')[1]`
is looked up (an `IndexError` on a malformed id is caught, cached as
`"<not found>"`, and issues no subprocess); a successful describe stores
and returns the stripped stdout; `CalledProcessError` stores and returns
`"<not found>"`. -/
def get_folder_name (env : Oracle) (st : CState) (folder_id_str : String) :
    String × CState :=
  match cacheGet folder_id_str st.cache with
  | some v => (v, st)
  | none =>
    match (pySplit '/' folder_id_str)[1]? with
    | none =>
        (notFound, { st with cache := (folder_id_str, notFound) :: st.cache })
    | some folder_id =>
        match env.describeFolder folder_id with
        | some out =>
            let name := pyStrip out
            (name,
             { cache := (folder_id_str, name) :: st.cache,
               resolveLog := st.resolveLog ++ [folder_id_str],
               callLog := st.callLog ++ [ExtCall.describeFolderName folder_id] })
        | none =>
            (notFound,
             { cache := (folder_id_str, notFound) :: st.cache,
               resolveLog := st.resolveLog ++ [folder_id_str],
               callLog := st.callLog ++ [ExtCall.describeFolderName folder_id] })

/-- Consume a literal character sequence from the front of a string's
characters; `some r` returns the remainder. -/
def dropLit : List Char → List Char → Option (List Char)
  | [], s => some s
  | _ :: _, [] => none
  | c :: cs, d :: ds => if c = d then dropLit cs ds else none

/-- Consume one regex `.` wildcard: any single character except a newline. -/
def dropDot : List Char → Option (List Char)
  | [] => none
  | c :: cs => if c = '\n' then none else some cs

/-- The trailing `[^/]+$` of the resource patterns: nonempty, no slash.
(Python's `$` also matching just before a final newline adds no further
strings here, since `'\n'` is itself accepted by `[^/]`.) -/
def tailSeg (cs : List Char) : Bool :=
  !cs.isEmpty && cs.all (fun c => c != '/')

/-- The part of the resource patterns shared by both kinds:
`//cloudresourcemanager.googleapis.` with the two `.` treated as the
regex wildcards they are; returns the remaining characters. -/
def restAfter (s : String) : Option (List Char) :=
  match dropLit "//cloudresourcemanager".data s.data with
  | none => none
  | some r1 =>
    match dropDot r1 with
    | none => none
    | some r2 =>
      match dropLit "googleapis".data r2 with
      | none => none
      | some r3 => dropDot r3

/-- The kind-specific part of the patterns: `com/<kind>/[^/]+$`. -/
def matchTail (kind : String) : Option (List Char) → Bool
  | none => false
  | some r =>
    match dropLit ("com/" ++ kind ++ "/").data r with
    | none => false
    | some r5 => tailSeg r5

/-- `re.match(r'^//cloudresourcemanager.googleapis.com/<kind>/[^/]+$', s)`
as a Bool. -/
def matchResource (kind : String) (s : String) : Bool :=
  matchTail kind (restAfter s)

/-- `is_project` (line 85). -/
def is_project (s : String) : Bool := matchResource "projects" s

/-- `is_folder` (line 86). -/
def is_folder (s : String) : Bool := matchResource "folders" s

/-- Starts-with test on character lists. -/
def listPre : List Char → List Char → Bool
  | [], _ => true
  | _ :: _, [] => false
  | a :: as, b :: bs => a = b && listPre as bs

/-- Occurs-anywhere test on character lists. -/
def listIn (n : List Char) : List Char → Bool
  | [] => n.isEmpty
  | b :: bs => listPre n (b :: bs) || listIn n bs

/-- Python's `needle in hay` on strings (substring containment). -/
def strIn (needle hay : String) : Bool := listIn needle.data hay.data

/-- `policy_doc.get('policy', {}).get('bindings', [])` (line 140). -/
def effBindings (doc : PolicyDoc) : List Binding :=
  (doc.policy.bind Policy.bindings).getD []

/-- The binding flattener (lines 141-148): one row per member, in binding
order then member order, all sharing the already-resolved fields. -/
def rowsFor (org rtype rid rname pname : String) (bs : List Binding) :
    List Row :=
  bs.flatMap (fun b => (b.members.getD []).map (fun m =>
    { organizationId := org, resourceType := rtype, resourceId := rid,
      resourceName := rname, parentName := pname,
      role := b.role.getD "", member := m }))

/-- `policy_doc.get('resource', '')` (line 79). -/
def resOf (doc : PolicyDoc) : String := doc.resource.getD ""

/-- The default applied on a missing `organization` field (line 81). -/
def orgUnknown : String := "organizations/UNKNOWN"

/-- `resource.split('/')[-1]` (lines 90 and 115). -/
def ridOf (doc : PolicyDoc) : String :=
  (pySplit '/' (resOf doc)).getLastD ""

/-- The organization id extracted on line 81, defaulted for use in
statements (the script itself raises when the index is absent). -/
def orgIdOf (doc : PolicyDoc) : String :=
  ((pySplit '/' (doc.organization.getD orgUnknown))[1]?).getD ""

/-- The Project arm of the main loop (lines 93-112), after the colon
filter: one `gcloud projects describe`, stdout unpacked into exactly
three tab-separated fields, parent resolved through the folder cache
when `parent_type == 'folder'`; `CalledProcessError` or a failed unpack
yields the project sentinel pair. -/
def projectBranch (env : Oracle) (st : CState)
    (organization_id resource_id : String) (bs : List Binding) :
    List Row × CState :=
  let st1 := { st with
    callLog := st.callLog ++ [ExtCall.describeProjectCall resource_id] }
  match env.describeProject resource_id with
  | none =>
      (rowsFor organization_id "Project" resource_id
        "<project details not found>" "" bs, st1)
  | some stdout =>
    match pySplit '\t' (pyStrip stdout) with
    | [name, parent_type, parent_id_str] =>
        if parent_type = "folder" then
          let r := get_folder_name env st1 ("folders/" ++ parent_id_str)
          (rowsFor organization_id "Project" resource_id name r.1 bs, r.2)
        else
          (rowsFor organization_id "Project" resource_id name
            "<Organization>" bs, st1)
    | _ =>
        (rowsFor organization_id "Project" resource_id
          "<project details not found>" "" bs, st1)

/-- The Folder arm of the main loop (lines 114-134): the folder's own
name through the cache, then one parent lookup; a parent path containing
`'folders/'` is itself resolved through the cache, otherwise the
organization sentinel; a failed lookup yields `"<Parent lookup failed>"`. -/
def folderBranch (env : Oracle) (st : CState)
    (organization_id resource_id : String) (bs : List Binding) :
    List Row × CState :=
  let r0 := get_folder_name env st ("folders/" ++ resource_id)
  let resource_name := r0.1
  let st2 := { r0.2 with
    callLog := r0.2.callLog ++ [ExtCall.describeFolderParent resource_id] }
  match env.getFolderParent resource_id with
  | some stdout =>
    let parent_path := pyStrip stdout
    if strIn "folders/" parent_path then
      let r1 := get_folder_name env st2 parent_path
      (rowsFor organization_id "Folder" resource_id resource_name r1.1 bs,
       r1.2)
    else
      (rowsFor organization_id "Folder" resource_id resource_name
        "<Organization>" bs, st2)
  | none =>
      (rowsFor organization_id "Folder" resource_id resource_name
        "<Parent lookup failed>" bs, st2)

/-- One iteration of the loop over `all_policies` (lines 78-148).
`none` models an unhandled exception: the only uncaught one is the
`IndexError` from `organization.split('/')[1]` on line 81, raised before
any classification or subprocess work for the document. -/
def processDoc (env : Oracle) (st : CState) (doc : PolicyDoc) :
    Option (List Row × CState) :=
  let resource := doc.resource.getD ""
  match (pySplit '/' (doc.organization.getD orgUnknown))[1]? with
  | none => none
  | some organization_id =>
    if is_project resource then
      let resource_id := (pySplit '/' resource).getLastD ""
      if charIn ':' resource_id then some ([], st)
      else some (projectBranch env st organization_id resource_id
        (effBindings doc))
    else if is_folder resource then
      let resource_id := (pySplit '/' resource).getLastD ""
      some (folderBranch env st organization_id resource_id
        (effBindings doc))
    else
      some ([], st)

/-- The whole loop: rows are accumulated in document order; an unhandled
exception aborts the loop, keeping the observation log up to that point. -/
def processDocs (env : Oracle) (st : CState) :
    List PolicyDoc → Option (List Row) × CState
  | [] => (some [], st)
  | d :: ds =>
    match processDoc env st d with
    | none => (none, st)
    | some (rs, st') =>
      match processDocs env st' ds with
      | (none, st2) => (none, st2)
      | (some rs2, st2) => (some (rs ++ rs2), st2)

/-- The fixed CSV header (line 154). -/
def headerRow : List String :=
  ["OrganizationID", "ResourceType", "ResourceID", "ResourceName",
   "Parent", "Role", "Member"]

/-- A report row as the list of cells written by `csv.writer`. -/
def rowToList (r : Row) : List String :=
  [r.organizationId, r.resourceType, r.resourceId, r.resourceName,
   r.parentName, r.role, r.member]

/-- Which fatal banner was printed, if any. -/
inductive FatalKind where
  | inputMissing
  | parseFailed
  | writeFailed
  deriving DecidableEq, Repr

/-- The file system as `main` observes it: whether the input exists,
what `json.load` yields on it (`none` = `JSONDecodeError`), and whether
the output destination can be opened for writing. -/
structure FS where
  inputExists : Bool
  inputParse : Option (List PolicyDoc)
  outputWritable : Bool

/-- The observable outcome of one run of `main`. -/
structure MainResult where
  exitCode : Nat
  output : Option (List (List String))
  resolveLog : List String
  callLog : List ExtCall
  fatalMsg : Option FatalKind
  deriving DecidableEq, Repr

/-- `main()` (lines 58-162): missing input and `JSONDecodeError` exit
before the loop; an unhandled exception in the loop aborts with the
interpreter's exit code 1 and no output; otherwise the CSV is written
(header first) unless opening the output fails, which is fatal. -/
def main (fs : FS) (env : Oracle) : MainResult :=
  if fs.inputExists = false then
    { exitCode := 1, output := none, resolveLog := [], callLog := [],
      fatalMsg := some FatalKind.inputMissing }
  else
    match fs.inputParse with
    | none =>
      { exitCode := 1, output := none, resolveLog := [], callLog := [],
        fatalMsg := some FatalKind.parseFailed }
    | some docs =>
      match processDocs env emptyState docs with
      | (none, st) =>
        { exitCode := 1, output := none, resolveLog := st.resolveLog,
          callLog := st.callLog, fatalMsg := none }
      | (some rows, st) =>
        if fs.outputWritable then
          { exitCode := 0,
            output := some (headerRow :: rows.map rowToList),
            resolveLog := st.resolveLog, callLog := st.callLog,
            fatalMsg := none }
        else
          { exitCode := 1, output := none, resolveLog := st.resolveLog,
            callLog := st.callLog,
            fatalMsg := some FatalKind.writeFailed }

/-- The rows of a loop-iteration result (empty when the iteration
raised). -/
def rowsOf (o : Option (List Row × CState)) : List Row :=
  (o.map Prod.fst).getD []

/-- The state after the Folder arm has resolved the folder's own name
and logged the parent lookup call (lines 117-123). -/
def stAfterFolderName (env : Oracle) (st : CState) (doc : PolicyDoc) :
    CState :=
  let r0 := get_folder_name env st ("folders/" ++ ridOf doc)
  { r0.2 with
    callLog := r0.2.callLog ++ [ExtCall.describeFolderParent (ridOf doc)] }

/-! ### Concrete fixtures used by witnesses and counterexamples -/

/-- A small lookup service: folder `200` is named `Shared` with parent
folder `100`, folder `100` is named `Top`, project `p1` is named
`Proj One` under parent folder `200`; everything else fails. -/
def envW : Oracle :=
  { describeFolder := fun id =>
      if id = "200" then some "Shared\n"
      else if id = "100" then some "Top\n" else none,
    describeProject := fun id =>
      if id = "p1" then some "Proj One\tfolder\t200" else none,
    getFolderParent := fun id =>
      if id = "200" then some "folders/100\n" else none }

/-- A lookup service on which every call fails. -/
def envFail : Oracle :=
  { describeFolder := fun _ => none,
    describeProject := fun _ => none,
    getFolderParent := fun _ => none }

def docP : PolicyDoc :=
  { resource := some "//cloudresourcemanager.googleapis.com/projects/p1",
    organization := some "organizations/999",
    policy := some { bindings := some [{ role := some "roles/viewer", members := some ["user:a@x.com", "user:b@x.com"] }] } }

def docF : PolicyDoc :=
  { resource := some "//cloudresourcemanager.googleapis.com/folders/200",
    organization := none,
    policy := some { bindings := some [{ role := some "roles/editor", members := some ["group:g@x.com"] }] } }

/-- A document with an unsupported resource and an organization value
with no slash. -/
def docBadOrg : PolicyDoc :=
  { resource := some "bogus", organization := some "x", policy := none }

/-- A system-style project (colon in its id) with a slashless
organization value. -/
def docColonBadOrg : PolicyDoc :=
  { resource := some "//cloudresourcemanager.googleapis.com/projects/sys:proj",
    organization := some "x",
    policy := some { bindings := some [{ role := some "roles/owner", members := some ["user:z@x.com"] }] } }

/-- A system-style project with a well-formed organization value. -/
def docColonOkOrg : PolicyDoc :=
  { resource := some "//cloudresourcemanager.googleapis.com/projects/sys:proj",
    organization := some "organizations/9",
    policy := some { bindings := some [{ role := some "roles/owner", members := some ["user:z@x.com"] }] } }

/-- An ordinary project with a slashless organization value. -/
def docProjBadOrg : PolicyDoc :=
  { resource := some "//cloudresourcemanager.googleapis.com/projects/p9",
    organization := some "x", policy := none }

/-- An ordinary project with a well-formed organization value. -/
def docProjOkOrg : PolicyDoc :=
  { resource := some "//cloudresourcemanager.googleapis.com/projects/p9",
    organization := some "organizations/9",
    policy := some { bindings := some [{ role := some "roles/admin", members := some ["user:q@x.com"] }] } }

/-- An unsupported resource with a well-formed organization value. -/
def docUnsup : PolicyDoc :=
  { resource := some "bogus", organization := some "organizations/1",
    policy := none }

/-- A folder document whose organization value has no slash. -/
def docOrgNoSlash : PolicyDoc :=
  { resource := some "//cloudresourcemanager.googleapis.com/folders/300",
    organization := some "badorg",
    policy := some { bindings := some [{ role := some "roles/viewer", members := some ["user:a@x.com"] }] } }

def fsW : FS :=
  { inputExists := true, inputParse := some [docP, docF],
    outputWritable := true }

def fsC7 : FS :=
  { inputExists := true, inputParse := some [docF],
    outputWritable := false }

def fsC8 : FS :=
  { inputExists := false, inputParse := none, outputWritable := true }

def fsC10 : FS :=
  { inputExists := true, inputParse := some [docF, docOrgNoSlash],
    outputWritable := true }

/-- The single row the fixture folder document produces. -/
def rowF : Row :=
  { organizationId := "UNKNOWN", resourceType := "Folder",
    resourceId := "200", resourceName := "Shared", parentName := "Top",
    role := "roles/editor", member := "group:g@x.com" }

/-! ### Lemmas about the classifier -/

theorem dropLit_eq : ∀ (xs s r : List Char), dropLit xs s = some r → s = xs ++ r := by
  intro xs
  induction xs with
  | nil =>
    intro s r h
    simp only [dropLit, Option.some.injEq] at h
    simp [h]
  | cons c cs ih =>
    intro s r h
    cases s with
    | nil => simp [dropLit] at h
    | cons d ds =>
      simp only [dropLit] at h
      by_cases hcd : c = d
      · subst hcd
        rw [if_pos rfl] at h
        have := ih ds r h
        simp [this]
      · rw [if_neg hcd] at h
        cases h

theorem dropLit_proj_then_fold (r4 r5 : List Char)
    (h : dropLit ("com/" ++ "projects" ++ "/").data r4 = some r5) :
    dropLit ("com/" ++ "folders" ++ "/").data r4 = none := by
  have heq := dropLit_eq _ _ _ h
  rw [heq]
  rfl

theorem dropLit_fold_then_proj (r4 r5 : List Char)
    (h : dropLit ("com/" ++ "folders" ++ "/").data r4 = some r5) :
    dropLit ("com/" ++ "projects" ++ "/").data r4 = none := by
  have heq := dropLit_eq _ _ _ h
  rw [heq]
  rfl

/-- Exact-kind matching: a string matching the project pattern never
matches the folder pattern. -/
theorem is_project_not_is_folder (s : String) (h : is_project s = true) :
    is_folder s = false := by
  unfold is_project matchResource at h
  unfold is_folder matchResource
  cases hra : restAfter s with
  | none => rw [hra] at h; simp [matchTail] at h
  | some r4 =>
    rw [hra] at h
    simp only [matchTail] at h ⊢
    cases h5 : dropLit ("com/" ++ "projects" ++ "/").data r4 with
    | none => rw [h5] at h; simp at h
    | some r5 => rw [dropLit_proj_then_fold r4 r5 h5]

/-- Exact-kind matching, the other direction. -/
theorem is_folder_not_is_project (s : String) (h : is_folder s = true) :
    is_project s = false := by
  unfold is_folder matchResource at h
  unfold is_project matchResource
  cases hra : restAfter s with
  | none => rw [hra] at h; simp [matchTail] at h
  | some r4 =>
    rw [hra] at h
    simp only [matchTail] at h ⊢
    cases h5 : dropLit ("com/" ++ "folders" ++ "/").data r4 with
    | none => rw [h5] at h; simp at h
    | some r5 => rw [dropLit_fold_then_proj r4 r5 h5]

/-! ### Lemmas about the name cache -/

theorem gfn_hit (env : Oracle) (st : CState) (fid v : String)
    (h : cacheGet fid st.cache = some v) :
    get_folder_name env st fid = (v, st) := by
  unfold get_folder_name
  rw [h]

theorem gfn_miss_malformed (env : Oracle) (st : CState) (fid : String)
    (h : cacheGet fid st.cache = none)
    (h2 : (pySplit '/' fid)[1]? = none) :
    get_folder_name env st fid =
      (notFound, { st with cache := (fid, notFound) :: st.cache }) := by
  unfold get_folder_name
  rw [h, h2]

theorem gfn_miss_ok (env : Oracle) (st : CState) (fid i out : String)
    (h : cacheGet fid st.cache = none)
    (h2 : (pySplit '/' fid)[1]? = some i)
    (h3 : env.describeFolder i = some out) :
    get_folder_name env st fid =
      (pyStrip out,
       { cache := (fid, pyStrip out) :: st.cache,
         resolveLog := st.resolveLog ++ [fid],
         callLog := st.callLog ++ [ExtCall.describeFolderName i] }) := by
  unfold get_folder_name
  rw [h, h2]
  dsimp only
  rw [h3]

theorem gfn_miss_err (env : Oracle) (st : CState) (fid i : String)
    (h : cacheGet fid st.cache = none)
    (h2 : (pySplit '/' fid)[1]? = some i)
    (h3 : env.describeFolder i = none) :
    get_folder_name env st fid =
      (notFound,
       { cache := (fid, notFound) :: st.cache,
         resolveLog := st.resolveLog ++ [fid],
         callLog := st.callLog ++ [ExtCall.describeFolderName i] }) := by
  unfold get_folder_name
  rw [h, h2]
  dsimp only
  rw [h3]

theorem cacheGet_cons_isSome (k : String) (e : String × String)
    (c : List (String × String)) (h : ∃ v, cacheGet k c = some v) :
    ∃ v, cacheGet k (e :: c) = some v := by
  obtain ⟨v, hv⟩ := h
  obtain ⟨k', v'⟩ := e
  by_cases hk : k = k'
  · exact ⟨v', by simp [cacheGet, hk]⟩
  · exact ⟨v, by simp [cacheGet, hk, hv]⟩

theorem cacheGet_self (k v : String) (c : List (String × String)) :
    cacheGet k ((k, v) :: c) = some v := by
  simp [cacheGet]

/-- Run invariant of the name cache: every identifier ever looked up
externally appears exactly once in the log and is present in the cache
(so a further resolve of it is a hit and issues nothing). -/
def CacheInv (st : CState) : Prop :=
  st.resolveLog.Nodup ∧
  ∀ id ∈ st.resolveLog, ∃ v, cacheGet id st.cache = some v

theorem cacheInv_empty : CacheInv emptyState := by
  refine ⟨List.nodup_nil, ?_⟩
  intro id hid
  simp [emptyState] at hid

theorem cacheInv_callLog (st : CState) (l : List ExtCall)
    (h : CacheInv st) : CacheInv { st with callLog := l } := h

theorem gfn_inv (env : Oracle) (st : CState) (fid : String)
    (h : CacheInv st) : CacheInv (get_folder_name env st fid).2 := by
  cases hc : cacheGet fid st.cache with
  | some v => rw [gfn_hit env st fid v hc]; exact h
  | none =>
    have hfid : fid ∉ st.resolveLog := by
      intro hmem
      obtain ⟨v, hv⟩ := h.2 fid hmem
      rw [hc] at hv
      cases hv
    have hnodup : (st.resolveLog ++ [fid]).Nodup := by
      refine List.Nodup.append h.1 (List.nodup_singleton fid) ?_
      intro a ha hb
      rw [List.mem_singleton] at hb
      subst hb
      exact hfid ha
    have hmem2 : ∀ (w : String) (id : String),
        id ∈ st.resolveLog ++ [fid] →
        ∃ v, cacheGet id ((fid, w) :: st.cache) = some v := by
      intro w id hid
      rw [List.mem_append, List.mem_singleton] at hid
      rcases hid with hid | hid
      · exact cacheGet_cons_isSome id (fid, w) st.cache (h.2 id hid)
      · subst hid
        exact ⟨w, cacheGet_self id w st.cache⟩
    cases h2 : (pySplit '/' fid)[1]? with
    | none =>
      rw [gfn_miss_malformed env st fid hc h2]
      refine ⟨h.1, ?_⟩
      intro id hid
      exact cacheGet_cons_isSome id (fid, notFound) st.cache (h.2 id hid)
    | some i =>
      cases h3 : env.describeFolder i with
      | some out =>
        rw [gfn_miss_ok env st fid i out hc h2 h3]
        exact ⟨hnodup, hmem2 (pyStrip out)⟩
      | none =>
        rw [gfn_miss_err env st fid i hc h2 h3]
        exact ⟨hnodup, hmem2 notFound⟩

/-! ### Lemmas about the flattener -/

theorem rowsFor_length (org rtype rid rname pname : String)
    (bs : List Binding) :
    (rowsFor org rtype rid rname pname bs).length =
      (bs.map (fun b => (b.members.getD []).length)).sum := by
  induction bs with
  | nil => rfl
  | cons b t ih =>
    simp only [rowsFor, List.flatMap_cons, List.length_append,
      List.length_map, List.map_cons, List.sum_cons] at ih ⊢
    omega

theorem rowsFor_fields (org rtype rid rname pname : String)
    (bs : List Binding) (r : Row)
    (hr : r ∈ rowsFor org rtype rid rname pname bs) :
    r.organizationId = org ∧ r.resourceType = rtype ∧
    r.resourceId = rid ∧ r.resourceName = rname ∧ r.parentName = pname := by
  unfold rowsFor at hr
  rw [List.mem_flatMap] at hr
  obtain ⟨b, _, hm⟩ := hr
  rw [List.mem_map] at hm
  obtain ⟨m, _, hrm⟩ := hm
  subst hrm
  exact ⟨rfl, rfl, rfl, rfl, rfl⟩

/-! ### Equations for the two resolver arms -/

/-- The state after the project describe call has been logged. -/
def stProj (st : CState) (rid : String) : CState :=
  { st with callLog := st.callLog ++ [ExtCall.describeProjectCall rid] }

theorem projectBranch_err (env : Oracle) (st : CState) (org rid : String)
    (bs : List Binding) (h : env.describeProject rid = none) :
    projectBranch env st org rid bs =
      (rowsFor org "Project" rid "<project details not found>" "" bs,
       stProj st rid) := by
  unfold projectBranch stProj
  rw [h]

theorem projectBranch_ok3 (env : Oracle) (st : CState) (org rid : String)
    (bs : List Binding) (stdout name parent_type parent_id_str : String)
    (h : env.describeProject rid = some stdout)
    (hsp : pySplit '\t' (pyStrip stdout) = [name, parent_type, parent_id_str]) :
    projectBranch env st org rid bs =
      (if parent_type = "folder" then
        (rowsFor org "Project" rid name
           (get_folder_name env (stProj st rid) ("folders/" ++ parent_id_str)).1 bs,
         (get_folder_name env (stProj st rid) ("folders/" ++ parent_id_str)).2)
       else
        (rowsFor org "Project" rid name "<Organization>" bs, stProj st rid)) := by
  unfold projectBranch stProj
  rw [h]
  dsimp only
  rw [hsp]

theorem projectBranch_badsplit (env : Oracle) (st : CState) (org rid : String)
    (bs : List Binding) (stdout : String)
    (h : env.describeProject rid = some stdout)
    (hsp : (pySplit '\t' (pyStrip stdout)).length ≠ 3) :
    projectBranch env st org rid bs =
      (rowsFor org "Project" rid "<project details not found>" "" bs,
       stProj st rid) := by
  unfold projectBranch stProj
  rw [h]
  dsimp only
  rcases hl : pySplit '\t' (pyStrip stdout) with _ | ⟨a, _ | ⟨b, _ | ⟨c, _ | ⟨d, t⟩⟩⟩⟩
  · rfl
  · rfl
  · rfl
  · exact absurd (by simp [hl]) hsp
  · rfl

/-- The state after the Folder arm's parent lookup call has been logged
(`stAfterFolderName` unfolded). -/
theorem stAfterFolderName_eq (env : Oracle) (st : CState) (doc : PolicyDoc) :
    stAfterFolderName env st doc =
      { (get_folder_name env st ("folders/" ++ ridOf doc)).2 with
        callLog := (get_folder_name env st ("folders/" ++ ridOf doc)).2.callLog ++
          [ExtCall.describeFolderParent (ridOf doc)] } := rfl

/-- The state after the Folder arm's own-name resolution plus parent
lookup logging, in terms of a raw id. -/
def stFold (env : Oracle) (st : CState) (rid : String) : CState :=
  { (get_folder_name env st ("folders/" ++ rid)).2 with
    callLog := (get_folder_name env st ("folders/" ++ rid)).2.callLog ++
      [ExtCall.describeFolderParent rid] }

theorem folderBranch_err (env : Oracle) (st : CState) (org rid : String)
    (bs : List Binding) (h : env.getFolderParent rid = none) :
    folderBranch env st org rid bs =
      (rowsFor org "Folder" rid (get_folder_name env st ("folders/" ++ rid)).1
         "<Parent lookup failed>" bs,
       stFold env st rid) := by
  unfold folderBranch stFold
  rw [h]

theorem folderBranch_parent_folder (env : Oracle) (st : CState)
    (org rid : String) (bs : List Binding) (stdout : String)
    (h : env.getFolderParent rid = some stdout)
    (hi : strIn "folders/" (pyStrip stdout) = true) :
    folderBranch env st org rid bs =
      (rowsFor org "Folder" rid (get_folder_name env st ("folders/" ++ rid)).1
         (get_folder_name env (stFold env st rid) (pyStrip stdout)).1 bs,
       (get_folder_name env (stFold env st rid) (pyStrip stdout)).2) := by
  unfold folderBranch stFold
  rw [h]
  dsimp only
  rw [if_pos hi]

theorem folderBranch_parent_org (env : Oracle) (st : CState)
    (org rid : String) (bs : List Binding) (stdout : String)
    (h : env.getFolderParent rid = some stdout)
    (hi : strIn "folders/" (pyStrip stdout) = false) :
    folderBranch env st org rid bs =
      (rowsFor org "Folder" rid (get_folder_name env st ("folders/" ++ rid)).1
         "<Organization>" bs,
       stFold env st rid) := by
  unfold folderBranch stFold
  rw [h]
  dsimp only
  rw [if_neg (by rw [hi]; exact Bool.false_ne_true)]

theorem projectBranch_inv (env : Oracle) (st : CState)
    (org rid : String) (bs : List Binding) (h : CacheInv st) :
    CacheInv (projectBranch env st org rid bs).2 := by
  have hst1 : CacheInv (stProj st rid) := h
  cases hd : env.describeProject rid with
  | none => rw [projectBranch_err env st org rid bs hd]; exact hst1
  | some stdout =>
    by_cases hl : (pySplit '\t' (pyStrip stdout)).length = 3
    · rcases hsp : pySplit '\t' (pyStrip stdout) with _ | ⟨a, _ | ⟨b, _ | ⟨c, _ | ⟨d, t⟩⟩⟩⟩ <;>
        rw [hsp] at hl <;> try simp at hl
      rw [projectBranch_ok3 env st org rid bs stdout a b c hd hsp]
      by_cases hb : b = "folder"
      · rw [if_pos hb]
        exact gfn_inv env (stProj st rid) ("folders/" ++ c) hst1
      · rw [if_neg hb]
        exact hst1
    · rw [projectBranch_badsplit env st org rid bs stdout hd hl]
      exact hst1

theorem folderBranch_inv (env : Oracle) (st : CState)
    (org rid : String) (bs : List Binding) (h : CacheInv st) :
    CacheInv (folderBranch env st org rid bs).2 := by
  have h1 : CacheInv (stFold env st rid) :=
    cacheInv_callLog _ _ (gfn_inv env st ("folders/" ++ rid) h)
  cases hd : env.getFolderParent rid with
  | none => rw [folderBranch_err env st org rid bs hd]; exact h1
  | some stdout =>
    cases hi : strIn "folders/" (pyStrip stdout) with
    | false => rw [folderBranch_parent_org env st org rid bs stdout hd hi]; exact h1
    | true =>
      rw [folderBranch_parent_folder env st org rid bs stdout hd hi]
      exact gfn_inv env (stFold env st rid) (pyStrip stdout) h1

/-- The master equation for one loop iteration once the organization id
has been extracted successfully. -/
theorem processDoc_some (env : Oracle) (st : CState) (doc : PolicyDoc)
    (oid : String)
    (horg : (pySplit '/' (doc.organization.getD orgUnknown))[1]? = some oid) :
    processDoc env st doc =
      (if is_project (resOf doc) then
        (if charIn ':' (ridOf doc) then some ([], st)
         else some (projectBranch env st oid (ridOf doc) (effBindings doc)))
       else if is_folder (resOf doc) then
         some (folderBranch env st oid (ridOf doc) (effBindings doc))
       else some ([], st)) := by
  unfold processDoc
  rw [horg]
  rfl

/-- A failed organization extraction is an uncaught `IndexError`. -/
theorem processDoc_none (env : Oracle) (st : CState) (doc : PolicyDoc)
    (horg : (pySplit '/' (doc.organization.getD orgUnknown))[1]? = none) :
    processDoc env st doc = none := by
  unfold processDoc
  rw [horg]

theorem processDoc_inv (env : Oracle) (st : CState) (doc : PolicyDoc)
    (rows : List Row) (st' : CState)
    (h : processDoc env st doc = some (rows, st')) (hi : CacheInv st) :
    CacheInv st' := by
  cases horg : (pySplit '/' (doc.organization.getD orgUnknown))[1]? with
  | none => rw [processDoc_none env st doc horg] at h; cases h
  | some oid =>
    rw [processDoc_some env st doc oid horg] at h
    by_cases hp : is_project (resOf doc)
    · rw [if_pos hp] at h
      by_cases hc : charIn ':' (ridOf doc)
      · rw [if_pos hc] at h
        have h' := Option.some.inj h
        rw [Prod.mk.injEq] at h'
        exact h'.2 ▸ hi
      · rw [if_neg hc] at h
        have h2 : st' = (projectBranch env st oid (ridOf doc) (effBindings doc)).2 := by
          rw [Option.some.inj h]
        rw [h2]
        exact projectBranch_inv env st oid (ridOf doc) (effBindings doc) hi
    · rw [if_neg hp] at h
      by_cases hf : is_folder (resOf doc)
      · rw [if_pos hf] at h
        have h2 : st' = (folderBranch env st oid (ridOf doc) (effBindings doc)).2 := by
          rw [Option.some.inj h]
        rw [h2]
        exact folderBranch_inv env st oid (ridOf doc) (effBindings doc) hi
      · rw [if_neg hf] at h
        have h' := Option.some.inj h
        rw [Prod.mk.injEq] at h'
        exact h'.2 ▸ hi

/-! ### Equations for the loop and for main -/

theorem processDocs_nil (env : Oracle) (st : CState) :
    processDocs env st [] = (some [], st) := rfl

theorem processDocs_cons_none (env : Oracle) (st : CState) (d : PolicyDoc)
    (ds : List PolicyDoc) (h : processDoc env st d = none) :
    processDocs env st (d :: ds) = (none, st) := by
  unfold processDocs
  rw [h]

theorem processDocs_cons (env : Oracle) (st : CState) (d : PolicyDoc)
    (ds : List PolicyDoc) (rs : List Row) (st' : CState)
    (h : processDoc env st d = some (rs, st')) :
    processDocs env st (d :: ds) =
      ((processDocs env st' ds).1.map (fun more => rs ++ more),
       (processDocs env st' ds).2) := by
  simp only [processDocs]
  rw [h]
  dsimp only
  cases hq : processDocs env st' ds with
  | mk o st2 =>
    cases o with
    | none => rfl
    | some rs2 => rfl

theorem processDocs_inv (env : Oracle) :
    ∀ (docs : List PolicyDoc) (st : CState), CacheInv st →
      CacheInv (processDocs env st docs).2 := by
  intro docs
  induction docs with
  | nil => intro st h; exact h
  | cons d ds ih =>
    intro st h
    cases hp : processDoc env st d with
    | none => rw [processDocs_cons_none env st d ds hp]; exact h
    | some p =>
      obtain ⟨rs, st'⟩ := p
      rw [processDocs_cons env st d ds rs st' hp]
      exact ih st' (processDoc_inv env st d rs st' hp h)

theorem main_missing (fs : FS) (env : Oracle) (h : fs.inputExists = false) :
    main fs env =
      { exitCode := 1, output := none, resolveLog := [], callLog := [],
        fatalMsg := some FatalKind.inputMissing } := by
  unfold main
  rw [h, if_pos rfl]

theorem main_parsefail (fs : FS) (env : Oracle)
    (h1 : fs.inputExists = true) (h2 : fs.inputParse = none) :
    main fs env =
      { exitCode := 1, output := none, resolveLog := [], callLog := [],
        fatalMsg := some FatalKind.parseFailed } := by
  unfold main
  rw [h1, if_neg (by decide), h2]

theorem main_run (fs : FS) (env : Oracle) (docs : List PolicyDoc)
    (h1 : fs.inputExists = true) (h2 : fs.inputParse = some docs) :
    main fs env =
      (match processDocs env emptyState docs with
       | (none, st) =>
         { exitCode := 1, output := none, resolveLog := st.resolveLog,
           callLog := st.callLog, fatalMsg := none }
       | (some rows, st) =>
         if fs.outputWritable then
           { exitCode := 0, output := some (headerRow :: rows.map rowToList),
             resolveLog := st.resolveLog, callLog := st.callLog,
             fatalMsg := none }
         else
           { exitCode := 1, output := none, resolveLog := st.resolveLog,
             callLog := st.callLog,
             fatalMsg := some FatalKind.writeFailed }) := by
  unfold main
  rw [h1, if_neg (by decide), h2]

theorem main_resolveLog_nodup (fs : FS) (env : Oracle) :
    (main fs env).resolveLog.Nodup := by
  cases he : fs.inputExists with
  | false => rw [main_missing fs env he]; exact List.nodup_nil
  | true =>
    cases hp : fs.inputParse with
    | none => rw [main_parsefail fs env he hp]; exact List.nodup_nil
    | some docs =>
      rw [main_run fs env docs he hp]
      have h := processDocs_inv env docs emptyState cacheInv_empty
      cases hq : processDocs env emptyState docs with
      | mk o st =>
        rw [hq] at h
        cases o with
        | none => exact h.1
        | some rows =>
          dsimp only
          by_cases hw : fs.outputWritable = true
          · rw [if_pos hw]
            exact h.1
          · rw [if_neg hw]
            exact h.1

/-! ### Claims -/

/-- C1: the Name Cache resolve operation (`get_folder_name`) issues at
most one external lookup per distinct folder identifier per run: a cache
hit returns the cached value with no external call and no state change;
on a miss, a malformed identifier issues no lookup and caches the
`"<not found>"` sentinel, a successful lookup stores and returns the
name, a failed lookup stores and returns the sentinel (logging the one
external call in each of the latter two cases); and over any complete
run of `main`, every folder identifier occurs at most once in the log of
externally-resolved identifiers, so an identifier is never re-queried,
even after failure. -/
theorem c1_name_cache_single_lookup :
    (∀ (env : Oracle) (st : CState) (fid v : String),
       cacheGet fid st.cache = some v →
       get_folder_name env st fid = (v, st))
  ∧ (∀ (env : Oracle) (st : CState) (fid : String),
       cacheGet fid st.cache = none →
       (pySplit '/' fid)[1]? = none →
       get_folder_name env st fid =
         (notFound, { st with cache := (fid, notFound) :: st.cache }))
  ∧ (∀ (env : Oracle) (st : CState) (fid i out : String),
       cacheGet fid st.cache = none →
       (pySplit '/' fid)[1]? = some i →
       env.describeFolder i = some out →
       get_folder_name env st fid =
         (pyStrip out,
          { cache := (fid, pyStrip out) :: st.cache,
            resolveLog := st.resolveLog ++ [fid],
            callLog := st.callLog ++ [ExtCall.describeFolderName i] }))
  ∧ (∀ (env : Oracle) (st : CState) (fid i : String),
       cacheGet fid st.cache = none →
       (pySplit '/' fid)[1]? = some i →
       env.describeFolder i = none →
       get_folder_name env st fid =
         (notFound,
          { cache := (fid, notFound) :: st.cache,
            resolveLog := st.resolveLog ++ [fid],
            callLog := st.callLog ++ [ExtCall.describeFolderName i] }))
  ∧ (∀ (fs : FS) (env : Oracle) (id : String),
       List.count id (main fs env).resolveLog ≤ 1) :=
  ⟨gfn_hit, gfn_miss_malformed, gfn_miss_ok, gfn_miss_err,
   fun fs env id =>
     List.nodup_iff_count_le_one.mp (main_resolveLog_nodup fs env) id⟩

theorem c1_name_cache_single_lookup_witness :
    get_folder_name envW ⟨[("folders/7", "Seven")], [], []⟩ "folders/7" =
      ("Seven", ⟨[("folders/7", "Seven")], [], []⟩) ∧
    List.count "folders/200" (main fsW envW).resolveLog ≤ 1 :=
  ⟨c1_name_cache_single_lookup.1 envW ⟨[("folders/7", "Seven")], [], []⟩
     "folders/7" "Seven" rfl,
   c1_name_cache_single_lookup.2.2.2.2 fsW envW "folders/200"⟩

/-- C2 counterexample: a document whose resource matches neither pattern
but whose `organization` value has no slash is not silently skipped —
line 81 raises an uncaught `IndexError` (modelled as `none`) before
classification, so the claim's "raises no error" fails as stated. -/
theorem c2_unsupported_counterexample :
    is_project (resOf docBadOrg) = false ∧
    is_folder (resOf docBadOrg) = false ∧
    processDoc envW emptyState docBadOrg = none :=
  ⟨rfl, rfl, rfl⟩

/-- C2 (amended): provided the document's organization value (or its
default, when the field is absent) contains a `/` so that the
organization id extraction on line 81 succeeds, a document matching
neither the project nor the folder pattern is classified unsupported:
it contributes zero rows, raises no error, and leaves the state
untouched (no lookup of any kind); moreover classification is
exact-kind — no string matches the project pattern and the folder
pattern at once, in either direction. -/
theorem c2_unsupported_skipped :
    (∀ (env : Oracle) (st : CState) (doc : PolicyDoc),
       is_project (resOf doc) = false →
       is_folder (resOf doc) = false →
       ((pySplit '/' (doc.organization.getD orgUnknown))[1]?).isSome = true →
       processDoc env st doc = some ([], st))
  ∧ (∀ s : String, is_project s = true → is_folder s = false)
  ∧ (∀ s : String, is_folder s = true → is_project s = false) := by
  refine ⟨?_, is_project_not_is_folder, is_folder_not_is_project⟩
  intro env st doc hp hf ho
  obtain ⟨oid, hoid⟩ := Option.isSome_iff_exists.mp ho
  rw [processDoc_some env st doc oid hoid, if_neg (by rw [hp]; exact Bool.false_ne_true),
    if_neg (by rw [hf]; exact Bool.false_ne_true)]

theorem c2_unsupported_skipped_witness :
    processDoc envW emptyState docUnsup = some ([], emptyState) ∧
    is_folder "//cloudresourcemanager.googleapis.com/projects/p1" = false :=
  ⟨c2_unsupported_skipped.1 envW emptyState docUnsup rfl rfl rfl,
   c2_unsupported_skipped.2.1
     "//cloudresourcemanager.googleapis.com/projects/p1" rfl⟩

/-- C8: when the input file does not exist, `main` exits with code 1,
reports the missing-input fatal error, writes no output, and issues no
external call of any kind. -/
theorem c8_missing_input (fs : FS) (env : Oracle)
    (h : fs.inputExists = false) :
    (main fs env).exitCode = 1 ∧
    (main fs env).output = none ∧
    (main fs env).callLog = [] ∧
    (main fs env).resolveLog = [] ∧
    (main fs env).fatalMsg = some FatalKind.inputMissing := by
  rw [main_missing fs env h]
  exact ⟨rfl, rfl, rfl, rfl, rfl⟩

theorem c8_missing_input_witness :
    (main fsC8 envW).exitCode = 1 ∧
    (main fsC8 envW).output = none ∧
    (main fsC8 envW).callLog = [] ∧
    (main fsC8 envW).resolveLog = [] ∧
    (main fsC8 envW).fatalMsg = some FatalKind.inputMissing :=
  c8_missing_input fsC8 envW rfl

/-- C10: a document whose `organization` value is a string with no `/`
makes the organization-id extraction on line 81 raise an uncaught
`IndexError`: the whole run aborts with exit code 1 and no output file
is written, even though the preceding document was processed fine (the
call log shows its lookups) — the failure is not confined to the bad
document. -/
theorem c10_org_without_slash_aborts_run :
    (pySplit '/' "badorg")[1]? = none ∧
    processDoc envW emptyState docOrgNoSlash = none ∧
    (main fsC10 envW).output = none ∧
    (main fsC10 envW).exitCode = 1 ∧
    (main fsC10 envW).callLog ≠ [] :=
  ⟨rfl, rfl, rfl, rfl, by decide⟩

/-- Whatever the lookups return, the Project arm's rows are the
flattener applied to the bindings with "Project" fields. -/
theorem projectBranch_rows (env : Oracle) (st : CState) (org rid : String)
    (bs : List Binding) :
    ∃ rn pn, (projectBranch env st org rid bs).1 =
      rowsFor org "Project" rid rn pn bs := by
  cases hd : env.describeProject rid with
  | none => exact ⟨_, _, by rw [projectBranch_err env st org rid bs hd]⟩
  | some stdout =>
    by_cases hl : (pySplit '\t' (pyStrip stdout)).length = 3
    · rcases hsp : pySplit '\t' (pyStrip stdout) with
        _ | ⟨a, _ | ⟨b, _ | ⟨c, _ | ⟨d, t⟩⟩⟩⟩ <;>
        rw [hsp] at hl <;> try simp at hl
      rw [projectBranch_ok3 env st org rid bs stdout a b c hd hsp]
      by_cases hb : b = "folder"
      · rw [if_pos hb]; exact ⟨_, _, rfl⟩
      · rw [if_neg hb]; exact ⟨_, _, rfl⟩
    · exact ⟨_, _, by rw [projectBranch_badsplit env st org rid bs stdout hd hl]⟩

/-- Whatever the lookups return, the Folder arm's rows are the
flattener applied to the bindings with "Folder" fields. -/
theorem folderBranch_rows (env : Oracle) (st : CState) (org rid : String)
    (bs : List Binding) :
    ∃ rn pn, (folderBranch env st org rid bs).1 =
      rowsFor org "Folder" rid rn pn bs := by
  cases hd : env.getFolderParent rid with
  | none => exact ⟨_, _, by rw [folderBranch_err env st org rid bs hd]⟩
  | some stdout =>
    cases hi : strIn "folders/" (pyStrip stdout) with
    | false =>
      exact ⟨_, _, by rw [folderBranch_parent_org env st org rid bs stdout hd hi]⟩
    | true =>
      exact ⟨_, _, by rw [folderBranch_parent_folder env st org rid bs stdout hd hi]⟩

/-- C3: the row count of the flattener is the sum of the member-list
lengths over the bindings (hence zero for empty members or bindings); a
processed document's rows are exactly the flattener's output in binding
order then member order; the loop accumulates rows in document order;
and the written output is exactly the fixed header row followed by the
accumulated rows. -/
theorem c3_row_count_and_order :
    (∀ (org rtype rid rname pname : String) (bs : List Binding),
       (rowsFor org rtype rid rname pname bs).length =
         (bs.map (fun b => (b.members.getD []).length)).sum)
  ∧ (∀ (env : Oracle) (st : CState) (doc : PolicyDoc) (rows : List Row)
       (st' : CState), processDoc env st doc = some (rows, st') →
       rows = [] ∨
       ∃ rtype rn pn, rows =
         rowsFor (orgIdOf doc) rtype (ridOf doc) rn pn (effBindings doc))
  ∧ (∀ (env : Oracle) (st : CState) (d : PolicyDoc) (ds : List PolicyDoc)
       (rs : List Row) (st' : CState),
       processDoc env st d = some (rs, st') →
       (processDocs env st (d :: ds)).1 =
         ((processDocs env st' ds).1).map (fun more => rs ++ more))
  ∧ (∀ (fs : FS) (env : Oracle) (docs : List PolicyDoc) (rows : List Row),
       fs.inputExists = true →
       fs.inputParse = some docs →
       (processDocs env emptyState docs).1 = some rows →
       fs.outputWritable = true →
       (main fs env).output = some (headerRow :: rows.map rowToList)) := by
  refine ⟨rowsFor_length, ?_, ?_, ?_⟩
  · intro env st doc rows st' h
    cases horg : (pySplit '/' (doc.organization.getD orgUnknown))[1]? with
    | none => rw [processDoc_none env st doc horg] at h; cases h
    | some oid =>
      rw [processDoc_some env st doc oid horg] at h
      have hoid : orgIdOf doc = oid := by unfold orgIdOf; rw [horg]; rfl
      by_cases hp : is_project (resOf doc) = true
      · rw [if_pos hp] at h
        by_cases hc : charIn ':' (ridOf doc) = true
        · rw [if_pos hc] at h
          have h' := Option.some.inj h
          rw [Prod.mk.injEq] at h'
          exact Or.inl h'.1.symm
        · rw [if_neg hc] at h
          have h' := Option.some.inj h
          have hrows : rows =
              (projectBranch env st oid (ridOf doc) (effBindings doc)).1 := by
            rw [h']
          obtain ⟨rn, pn, hr⟩ :=
            projectBranch_rows env st oid (ridOf doc) (effBindings doc)
          refine Or.inr ⟨"Project", rn, pn, ?_⟩
          rw [hrows, hr, hoid]
      · rw [if_neg hp] at h
        by_cases hf : is_folder (resOf doc) = true
        · rw [if_pos hf] at h
          have h' := Option.some.inj h
          have hrows : rows =
              (folderBranch env st oid (ridOf doc) (effBindings doc)).1 := by
            rw [h']
          obtain ⟨rn, pn, hr⟩ :=
            folderBranch_rows env st oid (ridOf doc) (effBindings doc)
          refine Or.inr ⟨"Folder", rn, pn, ?_⟩
          rw [hrows, hr, hoid]
        · rw [if_neg hf] at h
          have h' := Option.some.inj h
          rw [Prod.mk.injEq] at h'
          exact Or.inl h'.1.symm
  · intro env st d ds rs st' h
    rw [processDocs_cons env st d ds rs st' h]
  · intro fs env docs rows h1 h2 h3 h4
    rw [main_run fs env docs h1 h2]
    cases hq : processDocs env emptyState docs with
    | mk o st =>
      rw [hq] at h3
      cases o with
      | none => cases h3
      | some rows2 =>
        dsimp only at h3
        have hr := Option.some.inj h3
        subst hr
        dsimp only
        rw [if_pos h4]

theorem c3_row_count_and_order_witness :
    (rowsFor "999" "Project" "p1" "N" "P"
       (effBindings docP)).length = 2 ∧
    (main fsW envW).output =
      some (headerRow ::
        [rowToList ⟨"999", "Project", "p1", "Proj One", "Shared", "roles/viewer", "user:a@x.com"⟩,
         rowToList ⟨"999", "Project", "p1", "Proj One", "Shared", "roles/viewer", "user:b@x.com"⟩,
         rowToList rowF]) :=
  ⟨c3_row_count_and_order.1 "999" "Project" "p1" "N" "P" (effBindings docP),
   c3_row_count_and_order.2.2.2 fsW envW [docP, docF] _ rfl rfl rfl rfl⟩

/-- C4 counterexample: a document whose resource is a Project with a
colon in its id but whose `organization` value has no slash is not
"skipped entirely with no error": line 81 raises an uncaught
`IndexError` before the colon check. -/
theorem c4_colon_counterexample :
    is_project (resOf docColonBadOrg) = true ∧
    charIn ':' (ridOf docColonBadOrg) = true ∧
    processDoc envW emptyState docColonBadOrg = none :=
  ⟨rfl, rfl, rfl⟩

/-- C4 (amended): provided the organization id extraction of line 81
succeeds, a document classified Project whose extracted id contains a
colon is skipped entirely: zero rows, no external call of any kind (the
state, including both call logs, is unchanged), and no error. -/
theorem c4_colon_project_skipped (env : Oracle) (st : CState)
    (doc : PolicyDoc)
    (hp : is_project (resOf doc) = true)
    (hc : charIn ':' (ridOf doc) = true)
    (ho : ((pySplit '/' (doc.organization.getD orgUnknown))[1]?).isSome = true) :
    processDoc env st doc = some ([], st) := by
  obtain ⟨oid, hoid⟩ := Option.isSome_iff_exists.mp ho
  rw [processDoc_some env st doc oid hoid, if_pos hp, if_pos hc]

theorem c4_colon_project_skipped_witness :
    processDoc envW emptyState docColonOkOrg = some ([], emptyState) :=
  c4_colon_project_skipped envW emptyState docColonOkOrg rfl rfl rfl

/-- C9: a document with no `organization` field is processed without
failure and every row it contributes carries the literal organization
id `"UNKNOWN"` (the default `organizations/UNKNOWN` split on `/`). -/
theorem c9_missing_org_defaults_unknown (env : Oracle) (st : CState)
    (doc : PolicyDoc) (h : doc.organization = none) :
    ∃ out, processDoc env st doc = some out ∧
      ∀ r ∈ out.1, r.organizationId = "UNKNOWN" := by
  have horg : (pySplit '/' (doc.organization.getD orgUnknown))[1]? =
      some "UNKNOWN" := by
    rw [h]
    rfl
  rw [processDoc_some env st doc "UNKNOWN" horg]
  by_cases hp : is_project (resOf doc) = true
  · rw [if_pos hp]
    by_cases hc : charIn ':' (ridOf doc) = true
    · rw [if_pos hc]
      exact ⟨([], st), rfl, by intro r hr; simp at hr⟩
    · rw [if_neg hc]
      refine ⟨projectBranch env st "UNKNOWN" (ridOf doc) (effBindings doc),
        rfl, ?_⟩
      intro r hr
      obtain ⟨rn, pn, hrw⟩ :=
        projectBranch_rows env st "UNKNOWN" (ridOf doc) (effBindings doc)
      rw [hrw] at hr
      exact (rowsFor_fields _ _ _ _ _ _ r hr).1
  · rw [if_neg hp]
    by_cases hf : is_folder (resOf doc) = true
    · rw [if_pos hf]
      refine ⟨folderBranch env st "UNKNOWN" (ridOf doc) (effBindings doc),
        rfl, ?_⟩
      intro r hr
      obtain ⟨rn, pn, hrw⟩ :=
        folderBranch_rows env st "UNKNOWN" (ridOf doc) (effBindings doc)
      rw [hrw] at hr
      exact (rowsFor_fields _ _ _ _ _ _ r hr).1
    · rw [if_neg hf]
      exact ⟨([], st), rfl, by intro r hr; simp at hr⟩

theorem c9_missing_org_defaults_unknown_witness :
    ∃ out, processDoc envW emptyState docF = some out ∧
      ∀ r ∈ out.1, r.organizationId = "UNKNOWN" :=
  c9_missing_org_defaults_unknown envW emptyState docF rfl

/-- C5 counterexample: a Project document whose describe lookup would
fail but whose `organization` value has no slash aborts the whole run
(the following document is never processed), so "processing continues
to the next document rather than aborting the run" fails as stated. -/
theorem c5_project_failure_counterexample :
    is_project (resOf docProjBadOrg) = true ∧
    envFail.describeProject (ridOf docProjBadOrg) = none ∧
    (processDocs envFail emptyState [docProjBadOrg, docP]).1 = none :=
  ⟨rfl, rfl, rfl⟩

/-- C5 (amended): provided the organization id extraction of line 81
succeeds, a Project document whose describe lookup fails or whose
stdout does not split into exactly three tab-separated fields yields
rows that all carry `resourceName = "<project details not found>"` and
`parentName = ""`, and the loop continues with the next documents. -/
theorem c5_project_lookup_failure_degrades (env : Oracle) (st : CState)
    (doc : PolicyDoc) (oid : String)
    (hp : is_project (resOf doc) = true)
    (hc : charIn ':' (ridOf doc) = false)
    (ho : (pySplit '/' (doc.organization.getD orgUnknown))[1]? = some oid)
    (hf : env.describeProject (ridOf doc) = none ∨
          ∃ stdout, env.describeProject (ridOf doc) = some stdout ∧
            (pySplit '\t' (pyStrip stdout)).length ≠ 3) :
    processDoc env st doc =
      some (rowsFor oid "Project" (ridOf doc)
              "<project details not found>" "" (effBindings doc),
            stProj st (ridOf doc))
    ∧ (∀ r ∈ rowsFor oid "Project" (ridOf doc)
           "<project details not found>" "" (effBindings doc),
         r.resourceName = "<project details not found>" ∧ r.parentName = "")
    ∧ ∀ ds, (processDocs env st (doc :: ds)).1 =
        ((processDocs env (stProj st (ridOf doc)) ds).1).map
          (fun more => rowsFor oid "Project" (ridOf doc)
            "<project details not found>" "" (effBindings doc) ++ more) := by
  have hpb : projectBranch env st oid (ridOf doc) (effBindings doc) =
      (rowsFor oid "Project" (ridOf doc)
        "<project details not found>" "" (effBindings doc),
       stProj st (ridOf doc)) := by
    rcases hf with hf | ⟨stdout, hs, hl⟩
    · exact projectBranch_err env st oid (ridOf doc) (effBindings doc) hf
    · exact projectBranch_badsplit env st oid (ridOf doc) (effBindings doc)
        stdout hs hl
  have hmain : processDoc env st doc =
      some (rowsFor oid "Project" (ridOf doc)
              "<project details not found>" "" (effBindings doc),
            stProj st (ridOf doc)) := by
    rw [processDoc_some env st doc oid ho, if_pos hp,
      if_neg (by rw [hc]; exact Bool.false_ne_true), hpb]
  refine ⟨hmain, ?_, ?_⟩
  · intro r hr
    have h := rowsFor_fields _ _ _ _ _ _ r hr
    exact ⟨h.2.2.2.1, h.2.2.2.2⟩
  · intro ds
    rw [processDocs_cons env st doc ds _ _ hmain]

theorem c5_project_lookup_failure_degrades_witness :
    processDoc envFail emptyState docProjOkOrg =
      some (rowsFor "9" "Project" "p9"
              "<project details not found>" "" (effBindings docProjOkOrg),
            stProj emptyState "p9") :=
  (c5_project_lookup_failure_degrades envFail emptyState docProjOkOrg "9"
    rfl rfl rfl (Or.inl rfl)).1

/-- C6: for a Folder document (with the organization id extracted), a
successful parent-path lookup yields `parentName` equal to the
cache-resolved name of the stripped parent path when that path contains
`folders/`, and the organization sentinel `"<Organization>"` otherwise;
a failed lookup yields the folder-specific sentinel
`"<Parent lookup failed>"`, which differs from the project-path failure
value (the empty string). -/
theorem c6_folder_parent_sentinels (env : Oracle) (st : CState)
    (doc : PolicyDoc) (oid : String)
    (hf : is_folder (resOf doc) = true)
    (ho : (pySplit '/' (doc.organization.getD orgUnknown))[1]? = some oid) :
    (∀ stdout, env.getFolderParent (ridOf doc) = some stdout →
       (strIn "folders/" (pyStrip stdout) = true →
          ∀ r ∈ rowsOf (processDoc env st doc),
            r.parentName =
              (get_folder_name env (stFold env st (ridOf doc))
                (pyStrip stdout)).1)
     ∧ (strIn "folders/" (pyStrip stdout) = false →
          ∀ r ∈ rowsOf (processDoc env st doc),
            r.parentName = "<Organization>"))
  ∧ (env.getFolderParent (ridOf doc) = none →
       ∀ r ∈ rowsOf (processDoc env st doc),
         r.parentName = "<Parent lookup failed>")
  ∧ "<Parent lookup failed>" ≠ ("" : String) := by
  have hnp : is_project (resOf doc) = false :=
    is_folder_not_is_project (resOf doc) hf
  have hdoc : processDoc env st doc =
      some (folderBranch env st oid (ridOf doc) (effBindings doc)) := by
    rw [processDoc_some env st doc oid ho,
      if_neg (by rw [hnp]; exact Bool.false_ne_true), if_pos hf]
  refine ⟨?_, ?_, by decide⟩
  · intro stdout hs
    constructor
    · intro hin r hr
      rw [hdoc, folderBranch_parent_folder env st oid (ridOf doc)
        (effBindings doc) stdout hs hin] at hr
      exact (rowsFor_fields _ _ _ _ _ _ r hr).2.2.2.2
    · intro hin r hr
      rw [hdoc, folderBranch_parent_org env st oid (ridOf doc)
        (effBindings doc) stdout hs hin] at hr
      exact (rowsFor_fields _ _ _ _ _ _ r hr).2.2.2.2
  · intro hs r hr
    rw [hdoc, folderBranch_err env st oid (ridOf doc)
      (effBindings doc) hs] at hr
    exact (rowsFor_fields _ _ _ _ _ _ r hr).2.2.2.2

theorem c6_folder_parent_sentinels_witness :
    rowsOf (processDoc envW emptyState docF) = [rowF] ∧
    rowF.parentName = "Top" := by
  refine ⟨rfl, ?_⟩
  have h := ((c6_folder_parent_sentinels envW emptyState docF "UNKNOWN"
    rfl rfl).1 "folders/100\n" rfl).1 rfl rowF (by decide)
  exact h.trans rfl

/-- C7 counterexample: with an unwritable output destination the
failure is only detected at write time, after the whole processing
phase: the run below has a nonempty external call log (processing
happened) and only then exits 1 with no output, so "pre-processing"
fails as stated. -/
theorem c7_unwritable_counterexample :
    (main fsC7 envW).exitCode = 1 ∧
    (main fsC7 envW).output = none ∧
    (main fsC7 envW).callLog ≠ [] :=
  ⟨rfl, rfl, by decide⟩

/-- C7 (amended): an unwritable output destination is a fatal error
detected at write time, after processing: the run is reported with the
write-failure message, exits 1, and no output file is written. -/
theorem c7_unwritable_fatal (fs : FS) (env : Oracle)
    (docs : List PolicyDoc) (rows : List Row)
    (h1 : fs.inputExists = true) (h2 : fs.inputParse = some docs)
    (h3 : (processDocs env emptyState docs).1 = some rows)
    (h4 : fs.outputWritable = false) :
    (main fs env).exitCode = 1 ∧
    (main fs env).output = none ∧
    (main fs env).fatalMsg = some FatalKind.writeFailed := by
  rw [main_run fs env docs h1 h2]
  cases hq : processDocs env emptyState docs with
  | mk o st =>
    rw [hq] at h3
    cases o with
    | none => cases h3
    | some rows2 =>
      dsimp only
      rw [if_neg (by rw [h4]; exact Bool.false_ne_true)]
      exact ⟨rfl, rfl, rfl⟩

theorem c7_unwritable_fatal_witness :
    (main fsC7 envW).exitCode = 1 ∧
    (main fsC7 envW).output = none ∧
    (main fsC7 envW).fatalMsg = some FatalKind.writeFailed :=
  c7_unwritable_fatal fsC7 envW [docF] [rowF] rfl rfl rfl rfl

end IAMReport
